import Mathlib

/-!
Verification of the ColossalAI auto-parallel strategy engine and the
ZeRO stage-3 sharded-model runtime, as a shallow embedding in Lean 4.

Each Python structure or function referenced by a claim is translated
into an executable Lean definition; stateful code becomes explicit
state passing, fallible code returns `Except`.  Definitions carry a
comment naming the source location they embed.
-/

/- ----------------------------------------------------------------- -/
/- StatefulTensor (colossalai/zero/sharded_param/tensorful_state.py)  -/
/- ----------------------------------------------------------------- -/

/-- View of an `Except` value as a sum, to derive decidable equality. -/
def exceptToSum {ε α : Type} : Except ε α → ε ⊕ α
  | Except.error e => Sum.inl e
  | Except.ok a => Sum.inr a

instance {ε α : Type} [DecidableEq ε] [DecidableEq α] : DecidableEq (Except ε α) :=
  fun a b =>
    decidable_of_iff (exceptToSum a = exceptToSum b)
      (by cases a <;> cases b <;> simp [exceptToSum])

/-- Mirror of `TensorState` (tensorful_state.py, lines 6-10). -/
inductive TensorState where
  | FREE
  | HOLD
  | HOLD_AFTER_FWD
  | HOLD_AFTER_BWD
deriving DecidableEq

/-- Mirror of `StatefulTensor`: a payload (a torch tensor, abstracted to
an identity of type `Nat`; `none` models Python `None`) together with a
state label.  (tensorful_state.py, lines 13-26.) -/
structure StatefulTensor where
  state : TensorState
  payload : Option Nat
deriving DecidableEq

/-- Mirror of `StatefulTensor.__init__` (lines 21-26): the payload is
kept only when the state is not FREE. -/
def StatefulTensor.init (tensor : Nat) (state : TensorState) : StatefulTensor :=
  if state = TensorState.FREE then ⟨state, none⟩ else ⟨state, some tensor⟩

/-- Mirror of `StatefulTensor.set_null` (lines 37-39). -/
def StatefulTensor.set_null (_st : StatefulTensor) : StatefulTensor :=
  ⟨TensorState.FREE, none⟩

/-- Mirror of `StatefulTensor.trans_state` (lines 47-50): sets the state
and clears the payload only when the new state is FREE. -/
def StatefulTensor.trans_state (st : StatefulTensor) (s : TensorState) : StatefulTensor :=
  ⟨s, if s = TensorState.FREE then none else st.payload⟩

/-- Mirror of `StatefulTensor.reset_payload` (lines 59-61): replaces the
payload and leaves the state unchanged. -/
def StatefulTensor.reset_payload (st : StatefulTensor) (tensor : Nat) : StatefulTensor :=
  ⟨st.state, some tensor⟩

/-- Mirror of `StatefulTensor.copy_payload` (lines 56-57): an in-place
elementwise copy into the existing payload; on a `None` payload the
attribute access raises, modelled as `Except.error`. -/
def StatefulTensor.copy_payload (st : StatefulTensor) (_tensor : Nat) :
    Except Unit StatefulTensor :=
  match st.payload with
  | none => Except.error ()
  | some _ => Except.ok st

/-- One mutating operation on a `StatefulTensor`. -/
inductive TensorOp where
  | transState (s : TensorState)
  | setNull
  | resetPayload (t : Nat)
  | copyPayload (t : Nat)
deriving DecidableEq

def applyTensorOp (st : StatefulTensor) : TensorOp → Except Unit StatefulTensor
  | TensorOp.transState s => Except.ok (st.trans_state s)
  | TensorOp.setNull => Except.ok st.set_null
  | TensorOp.resetPayload t => Except.ok (st.reset_payload t)
  | TensorOp.copyPayload t => st.copy_payload t

def applyTensorOps (st : StatefulTensor) : List TensorOp → Except Unit StatefulTensor
  | [] => Except.ok st
  | op :: ops => do
      let st2 ← applyTensorOp st op
      applyTensorOps st2 ops

/-- The invariant claimed by the spec: payload is non-null iff state is
not FREE. -/
def payloadStateInv (st : StatefulTensor) : Bool :=
  st.payload.isSome == decide (st.state ≠ TensorState.FREE)

/-- The direction of the invariant the code maintains: a FREE tensor has
a null payload. -/
def freeImpliesNull (st : StatefulTensor) : Bool :=
  decide (st.state = TensorState.FREE) ≤ st.payload.isNone

def TensorOp.isResetPayload : TensorOp → Bool
  | TensorOp.resetPayload _ => true
  | _ => false

/- ----------------------------------------------------------------- -/
/- Shard-option filter (node_handler.py, NodeHandler.register_strategy,
   lines 202-224)                                                     -/
/- ----------------------------------------------------------------- -/

/-- Mirror of `ShardOption`
(colossalai/auto_parallel/tensor_shard/options.py). -/
inductive ShardOption where
  | STANDARD
  | SHARD
  | SHARD_LAST_AXIS
  | FULL_SHARD
deriving DecidableEq

/-- One `(op_data, sharding_spec)` entry of a strategy, reduced to the
fields the filter reads: whether `op_data.data` is a tensor, and the
`dim_partition_dict` of its sharding spec (tensor dimension to the list
of mesh axes sharding it; mesh axes are `Int` because the code also
admits the Python index `-1`). -/
structure OperandSharding where
  isTensor : Bool
  dimPartitionDict : List (Nat × List Int)
deriving DecidableEq

/-- Append an axis if it is not already collected (node_handler.py,
lines 208-211: `if shard_axis not in shard_axis_list: append`). -/
def insertShardAxis (l : List Int) (x : Int) : List Int :=
  if x ∈ l then l else l ++ [x]

/-- Mirror of the `shard_axis_list` accumulation of
`register_strategy` (node_handler.py, lines 204-211): distinct shard
axes over all tensor operands, in first-seen order. -/
def collectShardAxes (operands : List OperandSharding) : List Int :=
  operands.foldl
    (fun acc od =>
      if od.isTensor then
        od.dimPartitionDict.foldl (fun acc2 p => p.2.foldl insertShardAxis acc2) acc
      else acc)
    []

/-- Mirror of the removal decision of `register_strategy`
(node_handler.py, lines 213-221): whether a strategy is added to
`remove_strategy_list` under the given shard option, for a mesh with
`meshShapeLen` axes. -/
def shardOptionRemoves (opt : ShardOption) (meshShapeLen : Nat)
    (operands : List OperandSharding) : Bool :=
  let shardAxisList := collectShardAxes operands
  let lastAxis : Int := (meshShapeLen : Int) - 1
  let shardLevel := shardAxisList.length
  let usingLastAxis := decide (lastAxis ∈ shardAxisList) || decide ((-1 : Int) ∈ shardAxisList)
  match opt with
  | ShardOption.STANDARD => false
  | ShardOption.SHARD => shardLevel == 0
  | ShardOption.FULL_SHARD => shardLevel ≤ 1
  | ShardOption.SHARD_LAST_AXIS => shardLevel != 1 || !usingLastAxis

/-- Mirror of the final removal pass (node_handler.py, lines 223-224):
the strategies kept in the strategies vector. -/
def shardOptionFilter (opt : ShardOption) (meshShapeLen : Nat)
    (strategies : List (List OperandSharding)) : List (List OperandSharding) :=
  strategies.filter (fun s => !(shardOptionRemoves opt meshShapeLen s))

/- ----------------------------------------------------------------- -/
/- Distributed spec conversion (colossalai/tensor/dist_spec_mgr.py)   -/
/- ----------------------------------------------------------------- -/

/-- Placement pattern of a `_DistSpec`: replicate or shard. -/
inductive Placement where
  | r
  | s
deriving DecidableEq

/-- Mirror of `_DistSpec` (colossalai/tensor/distspec.py, used by
dist_spec_mgr.py): the placement, the process group (an abstract group
identity; `none` models Python `None`), the sharded tensor dims and the
partition counts.  Lean structural equality models Python `==`. -/
structure DistSpec where
  placement : Placement
  process_group : Option Nat
  dims : List Int
  num_partitions : List Nat
deriving DecidableEq

/-- Symbolic outcome of one layout-conversion transform on a tensor of
type `α`: which collective/local operation the code performs, with the
specs it was invoked with. -/
inductive TransResult (α : Type) where
  | unchanged (t : α)
  | shardAs (t : α) (old new : DistSpec)
  | gathered (t : α) (old : DistSpec)
  | allToAll (t : α) (old new : DistSpec)
  | gatherThenShard (t : α) (old new : DistSpec)
deriving DecidableEq

namespace DistSpecManager

/-- Mirror of `DistSpecManager._r2r` (dist_spec_mgr.py, lines 87-92). -/
def _r2r (t : α) (old_dist_spec dist_spec : DistSpec) : Except Unit (TransResult α) :=
  if old_dist_spec.process_group ≠ none
      ∧ old_dist_spec.process_group ≠ dist_spec.process_group
      ∧ dist_spec.process_group ≠ none then
    Except.error ()
  else Except.ok (TransResult.unchanged t)

/-- Mirror of `DistSpecManager._r2s` (dist_spec_mgr.py, lines 94-98):
a local narrow (`_shard_as`) after the group check. -/
def _r2s (t : α) (old_dist_spec dist_spec : DistSpec) : Except Unit (TransResult α) :=
  if old_dist_spec.process_group ≠ none
      ∧ old_dist_spec.process_group ≠ dist_spec.process_group then
    Except.error ()
  else Except.ok (TransResult.shardAs t old_dist_spec dist_spec)

/-- Mirror of `DistSpecManager._s2r` (dist_spec_mgr.py, lines 100-105):
an all-gather (`_gather`) after the group check. -/
def _s2r (t : α) (old_dist_spec dist_spec : DistSpec) : Except Unit (TransResult α) :=
  if old_dist_spec.process_group ≠ dist_spec.process_group
      ∧ dist_spec.process_group ≠ none then
    Except.error ()
  else Except.ok (TransResult.gathered t old_dist_spec)

/-- Mirror of `DistSpecManager._s2s` (dist_spec_mgr.py, lines 107-117):
cross-group conversion raises `NotImplementedError` (the `Except.error`);
equal specs return the tensor unchanged; two single-dim shard specs use
one all-to-all; otherwise an all-gather followed by a local re-shard. -/
def _s2s (t : α) (old_dist_spec dist_spec : DistSpec) : Except Unit (TransResult α) :=
  if old_dist_spec.process_group ≠ dist_spec.process_group then Except.error ()
  else if old_dist_spec = dist_spec then Except.ok (TransResult.unchanged t)
  else if old_dist_spec.dims.length = 1 ∧ dist_spec.dims.length = 1 then
    Except.ok (TransResult.allToAll t old_dist_spec dist_spec)
  else Except.ok (TransResult.gatherThenShard t old_dist_spec dist_spec)

/-- Mirror of the string-keyed `getattr` dispatch of
`handle_trans_spec` (dist_spec_mgr.py, lines 121 and 124-125): the
transform handle selected by the two placement values. -/
def trans_handle (p q : Placement) : α → DistSpec → DistSpec → Except Unit (TransResult α) :=
  match p, q with
  | Placement.r, Placement.r => _r2r
  | Placement.r, Placement.s => _r2s
  | Placement.s, Placement.r => _s2r
  | Placement.s, Placement.s => _s2s

end DistSpecManager

/-- Mirror of the autograd context saved by `TransformDistSpec.forward`
(dist_spec_mgr.py, lines 30-33): `ctx.old_dist_spec`, `ctx.dist_spec`
and `ctx.backward_trans_func`. -/
structure TransformCtx (β : Type) where
  old_dist_spec : DistSpec
  dist_spec : DistSpec
  backward_trans_func : β

/-- Mirror of `TransformDistSpec.forward` (dist_spec_mgr.py, lines
29-34): applies the forward transform handle to the tensor with the
old and new specs, and saves the context for backward. -/
def TransformDistSpec.forward {α γ : Type} {β : Type} (fwd : α → DistSpec → DistSpec → γ)
    (bwd : β) (t : α) (old_dist_spec dist_spec : DistSpec) : γ × TransformCtx β :=
  (fwd t old_dist_spec dist_spec, ⟨old_dist_spec, dist_spec, bwd⟩)

/-- Mirror of `TransformDistSpec.backward` (dist_spec_mgr.py, lines
36-38): applies the saved backward transform handle to the gradient
with `ctx.dist_spec` first and `ctx.old_dist_spec` second, i.e. with
the specs swapped relative to forward. -/
def TransformDistSpec.backward {α γ : Type}
    (ctx : TransformCtx (α → DistSpec → DistSpec → γ)) (grad_outputs : α) : γ :=
  ctx.backward_trans_func grad_outputs ctx.dist_spec ctx.old_dist_spec

/-- Mirror of `DistSpecManager.handle_trans_spec` (dist_spec_mgr.py,
lines 119-126) in the autograd-enabled case: wraps the two placement
handles into the differentiable forward/backward pair. -/
def handle_trans_spec (t : α) (old_dist_spec dist_spec : DistSpec) :
    Except Unit (TransResult α)
      × TransformCtx (α → DistSpec → DistSpec → Except Unit (TransResult α)) :=
  TransformDistSpec.forward
    (DistSpecManager.trans_handle old_dist_spec.placement dist_spec.placement)
    (DistSpecManager.trans_handle dist_spec.placement old_dist_spec.placement)
    t old_dist_spec dist_spec

/-- Two single-dim shard specs on the same process group: concrete
input for the `_s2s` analysis. -/
def sshardSpecA : DistSpec := ⟨Placement.s, some 0, [0], [2]⟩

/-- A second single-dim shard spec on the same process group,
sharding a different tensor dim. -/
def sshardSpecB : DistSpec := ⟨Placement.s, some 0, [1], [2]⟩

/- ----------------------------------------------------------------- -/
/- Training-state machine (colossalai/zero/zero_stage3_develop.py)    -/
/- ----------------------------------------------------------------- -/

/-- Mirror of `TrainingState` (zero_stage3_develop.py, lines 34-39). -/
inductive TrainingState where
  | IDLE
  | FORWARD
  | PRE_BACKWARD
  | POST_BACKWARD
  | GATHER_FULL_PARAMS
deriving DecidableEq, Fintype

/-- Mirror of `ZeroRedundancyLevel3Model._assert_state`
(zero_stage3_develop.py, lines 861-875): raises `ValueError` (the
`Except.error`, carrying the expected list and the actual state) when
the current state is not among the expected ones. -/
def assertState (expected : List TrainingState) (st : TrainingState) :
    Except (List TrainingState × TrainingState) Unit :=
  if st ∈ expected then Except.ok () else Except.error (expected, st)

/-- The state-machine events of `ZeroRedundancyLevel3Model`: forward
entry (line 144) and return (line 190), the pre-backward hook (lines
407-448, with `firstRun` standing for `not self._pre_backward_hook_has_run`),
the post-backward hook (lines 536-561), and the final backward callback
(lines 686-771, with `hasGradParams` standing for
`any(p.requires_grad for p in self.params)`). -/
inductive ZeroEvent where
  | forwardEntry
  | forwardReturn
  | preBackwardHook (firstRun : Bool)
  | postBackwardHook
  | finalBackwardCallback (hasGradParams : Bool)
deriving DecidableEq, Fintype

/-- The effect of each event on `self.training_state`, as the source
performs it (assertions model the `_assert_state` calls at the same
program points; forward entry and return perform no assertion). -/
def zeroStep : ZeroEvent → TrainingState →
    Except (List TrainingState × TrainingState) TrainingState
  | ZeroEvent.forwardEntry, _ => Except.ok TrainingState.FORWARD
  | ZeroEvent.forwardReturn, _ => Except.ok TrainingState.IDLE
  | ZeroEvent.preBackwardHook firstRun, st => do
      let _ ← if firstRun then
          assertState [TrainingState.IDLE, TrainingState.PRE_BACKWARD] st
        else Except.ok ()
      let st2 := if st = TrainingState.IDLE then TrainingState.PRE_BACKWARD else st
      let _ ← assertState [TrainingState.PRE_BACKWARD, TrainingState.POST_BACKWARD] st2
      Except.ok st2
  | ZeroEvent.postBackwardHook, st => do
      let _ ← assertState [TrainingState.PRE_BACKWARD, TrainingState.POST_BACKWARD] st
      Except.ok TrainingState.POST_BACKWARD
  | ZeroEvent.finalBackwardCallback hasGradParams, st => do
      let _ ← assertState
          (if hasGradParams then [TrainingState.POST_BACKWARD]
           else [TrainingState.PRE_BACKWARD]) st
      Except.ok TrainingState.IDLE

/-- The transition diagram stated by the claim: IDLE → FORWARD → IDLE →
PRE_BACKWARD → POST_BACKWARD → IDLE. -/
def claimedEdge : TrainingState → TrainingState → Bool
  | TrainingState.IDLE, TrainingState.FORWARD => true
  | TrainingState.FORWARD, TrainingState.IDLE => true
  | TrainingState.IDLE, TrainingState.PRE_BACKWARD => true
  | TrainingState.PRE_BACKWARD, TrainingState.POST_BACKWARD => true
  | TrainingState.POST_BACKWARD, TrainingState.IDLE => true
  | _, _ => false

/-- The set of states in which each event completes without raising, as
enforced by the `_assert_state` calls in the source (forward entry and
return check nothing, so every state is accepted there). -/
def hookExpectedStates : ZeroEvent → List TrainingState
  | ZeroEvent.forwardEntry => [TrainingState.IDLE, TrainingState.FORWARD,
      TrainingState.PRE_BACKWARD, TrainingState.POST_BACKWARD, TrainingState.GATHER_FULL_PARAMS]
  | ZeroEvent.forwardReturn => [TrainingState.IDLE, TrainingState.FORWARD,
      TrainingState.PRE_BACKWARD, TrainingState.POST_BACKWARD, TrainingState.GATHER_FULL_PARAMS]
  | ZeroEvent.preBackwardHook true => [TrainingState.IDLE, TrainingState.PRE_BACKWARD]
  | ZeroEvent.preBackwardHook false =>
      [TrainingState.IDLE, TrainingState.PRE_BACKWARD, TrainingState.POST_BACKWARD]
  | ZeroEvent.postBackwardHook => [TrainingState.PRE_BACKWARD, TrainingState.POST_BACKWARD]
  | ZeroEvent.finalBackwardCallback true => [TrainingState.POST_BACKWARD]
  | ZeroEvent.finalBackwardCallback false => [TrainingState.PRE_BACKWARD]

/-- Whether an event completes without raising in a given state. -/
def stepOk (e : ZeroEvent) (st : TrainingState) : Bool :=
  (zeroStep e st).toOption.isSome

/- ----------------------------------------------------------------- -/
/- Post-backward gradient pipeline (zero_stage3_develop.py,
   _post_backward_hook lines 535-637 and _reduce_scatter_callback
   lines 639-671)                                                     -/
/- ----------------------------------------------------------------- -/

/-- Loop of the pre-divide factor computation: doubles the factor while
it divides the world size and its square is below the world size. -/
def predivideFactorLoop : Nat → Nat → Nat → Nat
  | 0, _, factor => factor
  | fuel + 1, world_size, factor =>
      if world_size % factor = 0 ∧ factor * factor < world_size then
        predivideFactorLoop fuel world_size (2 * factor)
      else factor

/-- Modelled from the spec: `get_gradient_predivide_factor`
(colossalai/zero/_zero3_utils.py, imported at zero_stage3_develop.py
line 24, is not under src/).  Spec section 4.6: the world-size divide is
split into a pre-divide and a post-divide factor, and "for world_size
that is itself a power of 2 and small, one of the two factors may
become 1 (no-op) and the other absorbs the full division"; the
pre-divide factor is the largest power of two dividing the world size
whose square does not exceed it, so that for world_size 2 the
pre-divide factor is 2 and the post-divide factor 2/2 = 1. -/
def get_gradient_predivide_factor (world_size : Nat) : Nat :=
  predivideFactorLoop world_size world_size 1

/-- Modelled from the spec: `chunk_and_pad`
(colossalai/zero/_zero3_utils.py, not under src/).  Spec section 4.5
padding rule: the flattened tensor is zero-padded up to the next
multiple of the chunk count and split into equal chunks. -/
def chunk_and_pad (g : List ℚ) (num_chunks : Nat) : List (List ℚ) :=
  let size := (g.length + num_chunks - 1) / num_chunks
  (List.range num_chunks).map (fun i =>
    let c := (g.drop (i * size)).take size
    c ++ List.replicate (size - c.length) 0)

/-- Elementwise sum of equally shaped vectors. -/
def sumVecs : List (List ℚ) → List ℚ
  | [] => []
  | v :: vs => vs.foldl (fun a b => List.zipWith (fun x y => x + y) a b) v

/-- Mirror of `_reduce_scatter_callback` (zero_stage3_develop.py, lines
639-664) on the gradient values: post-divide when the factor exceeds 1
(lines 643-645), then accumulate into `zero_saved_grad_shard` for a
sharded parameter (lines 655-664); returns the new saved shard and the
final reduced gradient.  The dtype cast of lines 649-653 is a no-op on
rational values. -/
def reduce_scatter_callback (gradient_postdivide_factor : ℚ) (zero_is_sharded : Bool)
    (zero_saved_grad_shard : Option (List ℚ)) (reduced_grad : List ℚ) :
    Option (List ℚ) × List ℚ :=
  let rg := if 1 < gradient_postdivide_factor then
      reduced_grad.map (fun x => x / gradient_postdivide_factor)
    else reduced_grad
  if zero_is_sharded then
    match zero_saved_grad_shard with
    | none => (some rg, rg)
    | some sv =>
        let acc := List.zipWith (fun a b => a + b) sv rg
        (some acc, acc)
  else (zero_saved_grad_shard, rg)

/-- The post-backward gradient pipeline across all ranks of one process
group, composed exactly as the source does per rank: pre-divide the
local full gradient when the pre-divide factor exceeds 1
(zero_stage3_develop.py, lines 597-599), chunk it (line 621),
reduce-scatter so that rank `i` receives the elementwise sum of every
rank's chunk `i` (the semantics the docstring of `_post_backward_hook`
states at lines 543-549, realized by `ReduceScatterBucketer`), then run
the post-divide callback on the received shard. -/
def postBackwardGradPipeline (pre post : ℚ) (world_size : Nat)
    (grads : List (List ℚ)) : List (List ℚ) :=
  let predivided := grads.map (fun g =>
    if 1 < pre then g.map (fun x => x / pre) else g)
  let chunked := predivided.map (fun g => chunk_and_pad g world_size)
  (List.range world_size).map (fun i =>
    let summed := sumVecs (chunked.map (fun cs => cs.getD i []))
    (reduce_scatter_callback post true none summed).2)

/-- Configuration flags of `ZeroRedundancyLevel3Model` read by the
post-backward hook (zero_stage3_develop.py, lines 80-100 and the
per-parameter `zero_is_sharded` flag). -/
structure ZeroModelConfig where
  mixed_precision : Bool
  fp32_reduce_scatter : Bool
  reshard_after_forward : Bool
  require_backward_grad_sync : Bool
  zero_is_sharded : Bool
  world_size : Nat
  gradient_predivide_factor : ℚ
  gradient_postdivide_factor : ℚ
deriving DecidableEq

/-- The state the post-backward hook reads and writes: the module's
training state, the parameter's gradient and its `requires_grad` flag,
the effect flags of the parameter-manager calls the hook makes, the
queue of chunk lists handed to the asynchronous reduce-scatter
bucketer, and the saved gradient shard. -/
structure ParamHookState where
  training_state : TrainingState
  grad : Option (List ℚ)
  grad_requires_grad : Bool
  full_params_freed : Bool
  fp16_shards_freed : Bool
  data_is_fp32_shard : Bool
  pending_reduce_scatter : List (List (List ℚ))
  zero_saved_grad_shard : Option (List ℚ)
deriving DecidableEq

inductive PostBackwardError where
  | stateViolation
  | gradRequiresGrad
deriving DecidableEq

/-- Mirror of `_post_backward_hook` (zero_stage3_develop.py, lines
535-637): assert PRE_BACKWARD or POST_BACKWARD and move to
POST_BACKWARD (lines 558-559); return immediately when the gradient is
None (lines 560-561); reject a gradient requiring grad (lines 564-565);
free the full params when syncing or resharding (lines 567-573); free
fp16 shards under mixed precision (lines 575-579); switch to the fp32
shard (line 582); stop before any reduction when gradient sync is
disabled (lines 584-585); pre-divide when the factor exceeds 1 (lines
597-599); for a sharded parameter clear the gradient and enqueue the
padded chunks for asynchronous reduce-scatter (lines 601-624), and for
an unsharded parameter run the reduce-scatter callback synchronously on
the gradient itself (lines 625-630). -/
def post_backward_hook (cfg : ZeroModelConfig) (w : ParamHookState) :
    Except PostBackwardError ParamHookState :=
  if w.training_state ∈ [TrainingState.PRE_BACKWARD, TrainingState.POST_BACKWARD] then
    let w1 := { w with training_state := TrainingState.POST_BACKWARD }
    match w1.grad with
    | none => Except.ok w1
    | some g =>
        if w1.grad_requires_grad then Except.error PostBackwardError.gradRequiresGrad
        else
          let w2 := if cfg.require_backward_grad_sync || cfg.reshard_after_forward then
              { w1 with full_params_freed := true }
            else w1
          let w3 := if cfg.mixed_precision then { w2 with fp16_shards_freed := true } else w2
          let w4 := { w3 with data_is_fp32_shard := true }
          if cfg.require_backward_grad_sync = false then Except.ok w4
          else
            let g2 := if 1 < cfg.gradient_predivide_factor then
                g.map (fun x => x / cfg.gradient_predivide_factor)
              else g
            if cfg.zero_is_sharded then
              Except.ok { w4 with
                grad := none
                pending_reduce_scatter :=
                  w4.pending_reduce_scatter ++ [chunk_and_pad g2 cfg.world_size] }
            else
              let rc := reduce_scatter_callback cfg.gradient_postdivide_factor
                cfg.zero_is_sharded w4.zero_saved_grad_shard g2
              Except.ok { w4 with
                grad := some rc.2
                zero_saved_grad_shard := rc.1 }
  else Except.error PostBackwardError.stateViolation

/- ----------------------------------------------------------------- -/
/- no_sync context manager (zero_stage3_develop.py, lines 828-859)    -/
/- ----------------------------------------------------------------- -/

inductive NoSyncError where
  | notRoot
  | stateViolation
deriving DecidableEq

/-- Result of one `no_sync()` scope: the `_require_backward_grad_sync`
flags of the nested modules as seen inside the scope, the body's
outcome, and the flag list after the `finally` block ran (the `finally`
block itself asserts each flag is still `False` before restoring it,
modelled as the `Except` in `flags_after`). -/
structure NoSyncRun (σ ε : Type) where
  flags_during : List Bool
  body_result : Except ε σ
  flags_after : Except Unit (List Bool)
deriving DecidableEq

/-- Mirror of the `finally` block of `no_sync` (zero_stage3_develop.py,
lines 856-859): for each module, assert its current flag is `False`
and restore the saved flag. -/
def restoreFlags : List Bool → List Bool → Except Unit (List Bool)
  | [], [] => Except.ok []
  | old :: olds, cur :: curs =>
      if cur then Except.error ()
      else do
        let rest ← restoreFlags olds curs
        Except.ok (old :: rest)
  | _, _ => Except.error ()

/-- Mirror of `no_sync` (zero_stage3_develop.py, lines 828-859): assert
the receiver is the root module and in state IDLE (lines 845-846), save
every nested module's `_require_backward_grad_sync` flag and set it to
`False` (lines 849-853), run the body, and in `finally` restore every
saved flag whether the body returned or raised (lines 854-859).  The
body is modelled as a function receiving the flag list read-only,
because no code path of the module mutates
`_require_backward_grad_sync` other than `no_sync` itself. -/
def no_sync_run {σ ε : Type} (is_root : Bool) (training_state : TrainingState)
    (flags : List Bool) (body : List Bool → σ → Except ε σ) (st : σ) :
    Except NoSyncError (NoSyncRun σ ε) :=
  if is_root = false then Except.error NoSyncError.notRoot
  else if training_state ≠ TrainingState.IDLE then Except.error NoSyncError.stateViolation
  else
    let inner := flags.map (fun _ => false)
    Except.ok ⟨inner, body inner st, restoreFlags flags inner⟩

/- ----------------------------------------------------------------- -/
/- Embedding logical-to-physical fan-out
   (embedding_handler.py, lines 18-106)                               -/
/- ----------------------------------------------------------------- -/

/-- A `dim_partition_dict`: tensor dimension to the mesh axes sharding
it (mesh axes are `Nat` here; the embedding generators use ordinary
axis indices). -/
abbrev DimPartition := List (Nat × List Nat)

/-- Number of partitions induced on one tensor dimension by a list of
mesh axes: the product of the mesh-axis sizes. -/
def meshAxesPartitions (meshShape : List Nat) (axes : List Nat) : Nat :=
  axes.foldl (fun acc a => acc * meshShape.getD a 1) 1

/-- Apply a `dim_mapping` to a dimension index: mapped dims are
replaced, others kept. -/
def remapDim (dim_mapping : List (Nat × Nat)) (d : Nat) : Nat :=
  match dim_mapping.lookup d with
  | some d2 => d2
  | none => d

/-- Mirror of `ShardingNotDivisibleError`
(colossalai/tensor/sharding_spec.py): names the offending dimension and
its partition count. -/
structure ShardingNotDivisibleError where
  dim : Nat
  num_partition : Nat
deriving DecidableEq

/-- Divisibility validation of a partition dict against a tensor shape:
every sharded dimension's size must be divisible by its partition
count, the first violation is reported. -/
def checkShapeDivisible (meshShape physicalShape : List Nat) :
    DimPartition → Except ShardingNotDivisibleError Unit
  | [] => Except.ok ()
  | (d, axes) :: rest =>
      let parts := meshAxesPartitions meshShape axes
      if physicalShape.getD d 1 % parts = 0 then
        checkShapeDivisible meshShape physicalShape rest
      else Except.error ⟨d, parts⟩

/-- Modelled from the spec: `update_partition_dim`
(colossalai/auto_parallel/tensor_shard/utils, imported at
embedding_handler.py line 6, is not under src/).  Spec sections 4.2 and
4.4: each sharded dimension is remapped through `dim_mapping` and the
resulting spec is re-validated against the physical shape, raising
`ShardingNotDivisibleError` naming the offending dimension and
partition count when a sharded dimension's size is not divisible by its
partition count. -/
def update_partition_dim (meshShape : List Nat) (dict : DimPartition)
    (dim_mapping : List (Nat × Nat)) (physical_shape : List Nat) :
    Except ShardingNotDivisibleError DimPartition := do
  let newDict := dict.map (fun p => (remapDim dim_mapping p.1, p.2))
  let _ ← checkShapeDivisible meshShape physical_shape newDict
  Except.ok newDict

/-- The fields of one embedding `ShardingStrategy` that the
logical-to-physical conversion reads: the strategy name, the input and
output sharding specs (`dim_partition_dict`s over the logical shapes),
and the operand shapes (`input_op_data.data.shape`,
`output_op_data.data.shape`, `output_op_data.logical_shape`). -/
structure EmbStrategy where
  name : String
  inputDict : DimPartition
  outputDict : DimPartition
  input_physical_shape : List Nat
  output_physical_shape : List Nat
  output_logical_shape : List Nat
deriving DecidableEq

/-- One iteration of the enumeration loop of
`_convert_logical_sharding_to_physical_sharding_spec_for_embedding`
(embedding_handler.py, lines 53-80) for physical input dimension `i`:
remap the input's logical dim 0 to `i`, remap the output's logical dim
0 to `i` (and the last logical output dim to the last physical output
dim when it is sharded), rename with the numeric suffix, and drop the
candidate (`none`) when either update raises
`ShardingNotDivisibleError`. -/
def embCandidate (meshShape : List Nat) (s : EmbStrategy) (i : Nat) : Option EmbStrategy :=
  match update_partition_dim meshShape s.inputDict [(0, i)] s.input_physical_shape with
  | Except.error _ => none
  | Except.ok newInput =>
      match update_partition_dim meshShape s.outputDict
          (if (s.outputDict.lookup (s.output_logical_shape.length - 1)).isSome then
            [(0, i), (s.output_logical_shape.length - 1, s.output_physical_shape.length - 1)]
          else [(0, i)])
          s.output_physical_shape with
      | Except.error _ => none
      | Except.ok newOutput =>
          some { s with
            name := s.name ++ "_" ++ toString i
            inputDict := newInput
            outputDict := newOutput }

/-- Whether the candidate for physical input dimension `i` survives the
divisibility checks. -/
def embCandidateOk (meshShape : List Nat) (s : EmbStrategy) (i : Nat) : Bool :=
  (embCandidate meshShape s i).isSome

/-- Mirror of
`_convert_logical_sharding_to_physical_sharding_spec_for_embedding`
(embedding_handler.py, lines 18-106): when the input sharding spec
shards the flattened batch dimension (non-empty
`dim_partition_dict`), enumerate all physical input dimensions and keep
the candidates whose updates do not raise; otherwise convert the single
strategy from the logical to the physical shape (errors in this branch
are not caught and propagate). -/
def _convert_logical_sharding_for_embedding (meshShape : List Nat) (s : EmbStrategy) :
    Except ShardingNotDivisibleError (List EmbStrategy) :=
  if s.inputDict ≠ [] then
    Except.ok ((List.range s.input_physical_shape.length).filterMap (embCandidate meshShape s))
  else
    match update_partition_dim meshShape s.inputDict [] s.input_physical_shape with
    | Except.error e => Except.error e
    | Except.ok newInput =>
        match update_partition_dim meshShape s.outputDict
            (if (s.outputDict.lookup (s.output_logical_shape.length - 1)).isSome then
              [(s.output_logical_shape.length - 1, s.output_physical_shape.length - 1)]
            else [])
            s.output_physical_shape with
        | Except.error e => Except.error e
        | Except.ok newOutput =>
            Except.ok [{ s with inputDict := newInput, outputDict := newOutput }]

/-- The rank-3 scenario strategy of the claim: a (2,2) mesh, input of
physical shape [2,4,6] flattened to one logical batch dim sharded on
mesh axis 0, output of physical shape [2,4,6,8] with logical shape
[48,8] and the embedding dim sharded on mesh axis 1. -/
def embScenario : EmbStrategy :=
  ⟨"S0S1", [(0, [0])], [(0, [0]), (1, [1])], [2, 4, 6], [2, 4, 6, 8], [48, 8]⟩

/- ----------------------------------------------------------------- -/
/- Resharding cost (node_handler.py,
   NodeHandler.update_resharding_cost, lines 49-134)                  -/
/- ----------------------------------------------------------------- -/

/-- Mirror of `TrainCycleItem`: a cost split into forward, backward and
total. -/
structure TrainCycleItem where
  fwd : ℚ
  bwd : ℚ
  total : ℚ
deriving DecidableEq

/-- A predecessor's sharding spec as returned by
`get_sharding_spec_by_name`: absent (`None`), a single `ShardingSpec`
(abstracted to an identity, costed through the shape-consistency
oracle), or a tuple/list of nested specs. -/
inductive SpecTree where
  | noSpec
  | leaf (spec : Nat)
  | group (items : List SpecTree)

/-- The operand data the cost helper inspects: a tensor (with its
element size in bytes), a non-tensor scalar/Python value, or a
tuple/list of nested data. -/
inductive OpDataTree where
  | tensor (elem_size : ℚ)
  | scalar
  | group (items : List OpDataTree)

inductive CostError where
  | unsupportedDataType
  | specMismatch
  | indexError
deriving DecidableEq

mutual

/-- Mirror of the helper `_compute_resharding_cost` (node_handler.py,
lines 82-125), with the shape-consistency manager abstracted to the
oracle `cc` giving the (fwd, bwd, total) consistency cost of a pair of
specs: an absent (`None`) predecessor spec costs zero; a single spec on
tensor data is costed through shape consistency and scaled by the
element size; a single spec on non-tensor data raises `ValueError`
(lines 103-107); tuple/list specs recurse elementwise over
`zip(prev, current)` with `data[index]`, summing fwd, bwd and total
independently (lines 108-125). -/
def computeReshardingCost (cc : Nat → Nat → TrainCycleItem) :
    SpecTree → SpecTree → OpDataTree → Except CostError TrainCycleItem
  | SpecTree.noSpec, _, _ => Except.ok ⟨0, 0, 0⟩
  | SpecTree.leaf p, cur, dat =>
      match dat with
      | OpDataTree.tensor elem_size =>
          match cur with
          | SpecTree.leaf c =>
              Except.ok ⟨(cc p c).fwd * elem_size, (cc p c).bwd * elem_size,
                (cc p c).total * elem_size⟩
          | _ => Except.error CostError.specMismatch
      | _ => Except.error CostError.unsupportedDataType
  | SpecTree.group ps, cur, dat =>
      match cur, dat with
      | SpecTree.group cs, OpDataTree.group ds => sumGroupCosts cc ps cs ds
      | _, _ => Except.error CostError.specMismatch

/-- The elementwise recursion of the tuple/list branch: iterate over
`zip(prev, current)` (truncating at the shorter list, as `zip` does),
index into the data list (an exhausted data list is an `IndexError`),
and sum the three cost components independently. -/
def sumGroupCosts (cc : Nat → Nat → TrainCycleItem) :
    List SpecTree → List SpecTree → List OpDataTree → Except CostError TrainCycleItem
  | [], _, _ => Except.ok ⟨0, 0, 0⟩
  | _ :: _, [], _ => Except.ok ⟨0, 0, 0⟩
  | _ :: _, _ :: _, [] => Except.error CostError.indexError
  | p :: ps, c :: cs, d :: ds =>
      match computeReshardingCost cc p c d with
      | Except.error e => Except.error e
      | Except.ok item =>
          match sumGroupCosts cc ps cs ds with
          | Except.error e => Except.error e
          | Except.ok rest =>
              Except.ok ⟨item.fwd + rest.fwd, item.bwd + rest.bwd,
                item.total + rest.total⟩

end

/-- The inner loop of `update_resharding_cost` (node_handler.py, lines
130-132): one cost entry per predecessor strategy, in the
predecessor's own strategy order. -/
def costsForPred (cc : Nat → Nat → TrainCycleItem) (cur : SpecTree) (dat : OpDataTree) :
    List SpecTree → Except CostError (List TrainCycleItem)
  | [] => Except.ok []
  | p :: ps =>
      match computeReshardingCost cc p cur dat with
      | Except.error e => Except.error e
      | Except.ok c =>
          match costsForPred cc cur dat ps with
          | Except.error e => Except.error e
          | Except.ok rest => Except.ok (c :: rest)

/-- A predecessor node as `update_resharding_cost` sees it: its name
and, for each strategy in its own strategies vector, the sharding spec
it assigns to this node's output (node_handler.py, lines 73-76). -/
structure PredNode where
  name : String
  prev_sharding_specs : List SpecTree

/-- The current strategy's view: operand name, chosen sharding spec and
operand data, for each operand in `strategy.sharding_specs`. -/
structure NodeStrategy where
  operands : List (String × SpecTree × OpDataTree)

/-- Mirror of `NodeHandler.update_resharding_cost` (node_handler.py,
lines 49-134): for each predecessor node, skip it when its name is not
among the strategy's operand names (lines 63-65), otherwise store one
cost entry per predecessor strategy (lines 127-132); the result is the
`resharding_costs` mapping. -/
def update_resharding_cost (cc : Nat → Nat → TrainCycleItem) :
    List PredNode → NodeStrategy → Except CostError (List (String × List TrainCycleItem))
  | [], _ => Except.ok []
  | p :: rest, strat =>
      match strat.operands.find? (fun o => o.1 == p.name) with
      | none => update_resharding_cost cc rest strat
      | some od =>
          match costsForPred cc od.2.1 od.2.2 p.prev_sharding_specs with
          | Except.error e => Except.error e
          | Except.ok costs =>
              match update_resharding_cost cc rest strat with
              | Except.error e => Except.error e
              | Except.ok tail => Except.ok ((p.name, costs) :: tail)

/-- A concrete cost oracle for the witness. -/
def ccOne : Nat → Nat → TrainCycleItem := fun _ _ => ⟨1, 2, 3⟩

/-- A concrete predecessor with two strategies, both assigning no spec
to this node. -/
def predX : PredNode := ⟨"x", [SpecTree.noSpec, SpecTree.noSpec]⟩

/-- A concrete strategy whose only operand is the predecessor `x`. -/
def stratX : NodeStrategy := ⟨[("x", SpecTree.leaf 0, OpDataTree.tensor 4)]⟩

/-- The resharding costs computed for `predX` under `stratX`. -/
def resX : List (String × List TrainCycleItem) := [("x", [⟨0, 0, 0⟩, ⟨0, 0, 0⟩])]

/- ----------------------------------------------------------------- -/
/- Theorems                                                           -/
/- ----------------------------------------------------------------- -/

theorem restoreFlags_all_false (flags : List Bool) :
    restoreFlags flags (flags.map (fun _ => false)) = Except.ok flags := by
  induction flags with
  | nil => rfl
  | cons b rest ih =>
      show (do
          let r ← restoreFlags rest (rest.map (fun _ => false))
          Except.ok (b :: r)) = Except.ok (b :: rest)
      rw [ih]
      rfl

theorem applyTensorOps_append (st : StatefulTensor) (op : TensorOp) (ops : List TensorOp) :
    applyTensorOps st (op :: ops) =
      (applyTensorOp st op).bind (fun st2 => applyTensorOps st2 ops) := rfl

theorem freeImpliesNull_step (st : StatefulTensor) (op : TensorOp) (st2 : StatefulTensor)
    (hop : ¬ op.isResetPayload = true)
    (h : applyTensorOp st op = Except.ok st2)
    (hst : freeImpliesNull st = true) : freeImpliesNull st2 = true := by
  cases op with
  | transState s =>
      simp only [applyTensorOp, Except.ok.injEq] at h
      subst h
      cases s <;> simp [StatefulTensor.trans_state, freeImpliesNull]
  | setNull =>
      simp only [applyTensorOp, Except.ok.injEq] at h
      subst h
      simp [StatefulTensor.set_null, freeImpliesNull]
  | resetPayload t => simp [TensorOp.isResetPayload] at hop
  | copyPayload t =>
      simp only [applyTensorOp, StatefulTensor.copy_payload] at h
      cases hp : st.payload with
      | none => rw [hp] at h; cases h
      | some v => rw [hp] at h; cases h; exact hst

theorem freeImpliesNull_ops (ops : List TensorOp) :
    ∀ st st2 : StatefulTensor, (∀ op ∈ ops, ¬ op.isResetPayload = true) →
      applyTensorOps st ops = Except.ok st2 →
      freeImpliesNull st = true → freeImpliesNull st2 = true := by
  induction ops with
  | nil => intro st st2 _ h hst; simp [applyTensorOps] at h; rwa [← h]
  | cons op rest ih =>
      intro st st2 hops h hst
      rw [applyTensorOps_append] at h
      cases hstep : applyTensorOp st op with
      | error e => rw [hstep] at h; cases h
      | ok stm =>
          rw [hstep] at h
          simp only [Except.bind] at h
          exact ih stm st2 (fun o ho => hops o (List.mem_cons_of_mem _ ho)) h
            (freeImpliesNull_step st op stm (hops op (List.mem_cons_self _ _)) hstep hst)

theorem freeImpliesNull_init (tensor : Nat) (s : TensorState) :
    freeImpliesNull (StatefulTensor.init tensor s) = true := by
  cases s <;> simp [StatefulTensor.init, freeImpliesNull]

/-- C8 counterexample: starting from a freshly constructed HOLD tensor,
the operation sequence `set_null; trans_state HOLD` ends in state HOLD
with a null payload, so "payload is non-null iff state is not FREE"
fails after a sequence of the listed operations. -/
theorem stateful_tensor_iff_invariant_cex :
    applyTensorOps (StatefulTensor.init 0 TensorState.HOLD)
        [TensorOp.setNull, TensorOp.transState TensorState.HOLD] =
      Except.ok ⟨TensorState.HOLD, none⟩
    ∧ payloadStateInv ⟨TensorState.HOLD, none⟩ = false := by
  constructor
  · rfl
  · rfl

/-- C8 (amended): after construction, and after any sequence of
`trans_state`, `set_null` and `copy_payload` operations (`reset_payload`
excluded), a FREE state always has a null payload; the full
"non-null iff not FREE" equivalence does not hold because `trans_state`
to a non-FREE state does not restore a payload and `reset_payload` does
not update the state. -/
theorem stateful_tensor_free_implies_null (tensor : Nat) (s : TensorState)
    (ops : List TensorOp) (st2 : StatefulTensor)
    (hops : ∀ op ∈ ops, ¬ op.isResetPayload = true)
    (h : applyTensorOps (StatefulTensor.init tensor s) ops = Except.ok st2) :
    freeImpliesNull st2 = true :=
  freeImpliesNull_ops ops (StatefulTensor.init tensor s) st2 hops h
    (freeImpliesNull_init tensor s)

/-- Witness for C8's amended theorem at a concrete run. -/
theorem stateful_tensor_free_implies_null_witness :
    freeImpliesNull ⟨TensorState.FREE, none⟩ = true :=
  stateful_tensor_free_implies_null 7 TensorState.HOLD
    [TensorOp.copyPayload 3, TensorOp.transState TensorState.FREE]
    ⟨TensorState.FREE, none⟩ (by decide) (by rfl)

/-- C1 counterexample: under SHARD_LAST_AXIS with a 2-axis mesh, a
strategy whose single shard axis is the Python alias `-1` is kept by the
filter, yet `-1` is not the mesh's last axis index `1`. -/
theorem shard_option_last_axis_cex :
    shardOptionRemoves ShardOption.SHARD_LAST_AXIS 2 [⟨true, [(0, [-1])]⟩] = false
    ∧ collectShardAxes [⟨true, [(0, [-1])]⟩] ≠ [(1 : Int)] := by
  constructor
  · rfl
  · decide

/-- C1 (amended): the shard-option filter keeps a strategy under
STANDARD always; under SHARD only if some mesh axis is sharded; under
FULL_SHARD only if at least two distinct axes are sharded; and under
SHARD_LAST_AXIS only if exactly one axis is sharded and that axis is the
mesh's last axis index or the Python alias `-1` for it. -/
theorem shard_option_filter_policy (meshShapeLen : Nat) (s : List OperandSharding) :
    shardOptionRemoves ShardOption.STANDARD meshShapeLen s = false
    ∧ (shardOptionRemoves ShardOption.SHARD meshShapeLen s = false →
        collectShardAxes s ≠ [])
    ∧ (shardOptionRemoves ShardOption.FULL_SHARD meshShapeLen s = false →
        2 ≤ (collectShardAxes s).length)
    ∧ (shardOptionRemoves ShardOption.SHARD_LAST_AXIS meshShapeLen s = false →
        collectShardAxes s = [(meshShapeLen : Int) - 1]
        ∨ collectShardAxes s = [(-1 : Int)]) := by
  refine ⟨rfl, ?_, ?_, ?_⟩
  · intro h
    simp only [shardOptionRemoves, beq_iff_eq, List.length_eq_zero] at h
    intro hc
    rw [hc] at h
    simp at h
  · intro h
    simp only [shardOptionRemoves, decide_eq_false_iff_not, not_le] at h
    omega
  · intro h
    simp only [shardOptionRemoves, Bool.or_eq_false_iff, bne_eq_false_iff_eq,
      Bool.not_eq_false, Bool.or_eq_true, decide_eq_true_eq] at h
    obtain ⟨hlen, hmem⟩ := h
    simp only [Bool.not_eq_false', Bool.or_eq_true, decide_eq_true_eq] at hmem
    obtain ⟨a, ha⟩ := List.length_eq_one.mp hlen
    rw [ha] at hmem ⊢
    simp only [List.mem_singleton] at hmem
    rcases hmem with hm | hm
    · exact Or.inl (by rw [hm])
    · exact Or.inr (by rw [hm])

/-- Witness for C1's amended theorem at a concrete strategy. -/
theorem shard_option_filter_policy_witness :
    collectShardAxes [⟨true, [(0, [(1 : Int)])]⟩] = [(2 : Int) - 1]
    ∨ collectShardAxes [⟨true, [(0, [(1 : Int)])]⟩] = [(-1 : Int)] :=
  (shard_option_filter_policy 2 [⟨true, [(0, [(1 : Int)])]⟩]).2.2.2 (by decide)

/-- C2 counterexample: an S→S conversion on the same process group in
which both specs shard exactly one dimension is NOT performed by an
all-to-all when the two specs are equal — `_s2s` returns the tensor
unchanged before reaching the all-to-all branch. -/
theorem s2s_equal_spec_cex :
    DistSpecManager._s2s (0 : Nat) sshardSpecA sshardSpecA =
      Except.ok (TransResult.unchanged 0)
    ∧ sshardSpecA.dims.length = 1
    ∧ TransResult.unchanged (0 : Nat) ≠ TransResult.allToAll 0 sshardSpecA sshardSpecA := by
  refine ⟨rfl, rfl, ?_⟩
  decide

/-- C2 (amended): for a shard-to-shard conversion, differing process
groups raise `NotImplementedError`; on the same process group, equal
specs return the tensor unchanged, two distinct specs that each shard
exactly one dimension use a single all-to-all, and every other distinct
pair is an all-gather followed by a local re-shard. -/
theorem s2s_dispatch {α : Type} (t : α) (old_dist_spec dist_spec : DistSpec) :
    (old_dist_spec.process_group ≠ dist_spec.process_group →
      DistSpecManager._s2s t old_dist_spec dist_spec = Except.error ())
    ∧ (old_dist_spec = dist_spec →
      DistSpecManager._s2s t old_dist_spec dist_spec =
        Except.ok (TransResult.unchanged t))
    ∧ (old_dist_spec.process_group = dist_spec.process_group →
        old_dist_spec ≠ dist_spec →
        old_dist_spec.dims.length = 1 → dist_spec.dims.length = 1 →
      DistSpecManager._s2s t old_dist_spec dist_spec =
        Except.ok (TransResult.allToAll t old_dist_spec dist_spec))
    ∧ (old_dist_spec.process_group = dist_spec.process_group →
        old_dist_spec ≠ dist_spec →
        ¬(old_dist_spec.dims.length = 1 ∧ dist_spec.dims.length = 1) →
      DistSpecManager._s2s t old_dist_spec dist_spec =
        Except.ok (TransResult.gatherThenShard t old_dist_spec dist_spec)) := by
  refine ⟨?_, ?_, ?_, ?_⟩
  · intro h
    simp [DistSpecManager._s2s, h]
  · intro h
    subst h
    simp [DistSpecManager._s2s]
  · intro hpg hne h1 h2
    simp [DistSpecManager._s2s, hpg, hne, h1, h2]
  · intro hpg hne hnot
    simp [DistSpecManager._s2s, hpg, hne, hnot]

/-- Witness for C2's amended theorem: two distinct single-dim shard
specs on the same group go through the all-to-all branch. -/
theorem s2s_dispatch_witness :
    DistSpecManager._s2s (0 : Nat) sshardSpecA sshardSpecB =
      Except.ok (TransResult.allToAll 0 sshardSpecA sshardSpecB) :=
  (s2s_dispatch 0 sshardSpecA sshardSpecB).2.2.1 rfl (by decide) rfl rfl

/-- C4 (confirmed): the layout conversion wrapped as a differentiable
operation applies the forward transform handle (old spec to new spec)
on the forward pass, and on the backward pass applies the mirrored
transform handle with the specs swapped, so the gradient's backward
transform coincides with the forward transform of the reversed
conversion; the pair is exposed as an invocable forward result plus
backward function. -/
theorem transform_dist_spec_mirrored {α : Type} (t g : α)
    (old_dist_spec dist_spec : DistSpec) :
    (handle_trans_spec t old_dist_spec dist_spec).1 =
      DistSpecManager.trans_handle old_dist_spec.placement dist_spec.placement
        t old_dist_spec dist_spec
    ∧ TransformDistSpec.backward (handle_trans_spec t old_dist_spec dist_spec).2 g =
      DistSpecManager.trans_handle dist_spec.placement old_dist_spec.placement
        g dist_spec old_dist_spec
    ∧ TransformDistSpec.backward (handle_trans_spec t old_dist_spec dist_spec).2 g =
      (handle_trans_spec g dist_spec old_dist_spec).1 :=
  ⟨rfl, rfl, rfl⟩

/-- C5 counterexample: `forward` sets FORWARD unconditionally (no state
assertion), so invoking forward while the state is PRE_BACKWARD — which
the source explicitly supports for activation checkpointing — succeeds
and produces the transition PRE_BACKWARD → FORWARD, which is not an
edge of the claimed sequence. -/
theorem training_state_forward_entry_cex :
    zeroStep ZeroEvent.forwardEntry TrainingState.PRE_BACKWARD =
      Except.ok TrainingState.FORWARD
    ∧ claimedEdge TrainingState.PRE_BACKWARD TrainingState.FORWARD = false :=
  ⟨rfl, rfl⟩

/-- C5 (amended): every successful transition of the backward hooks and
the final callback is an edge of the claimed sequence or leaves the
state unchanged, except that the final callback of a module with no
gradient-requiring parameter moves PRE_BACKWARD directly to IDLE;
forward entry and forward return check nothing and set FORWARD
respectively IDLE from any state; and each hook succeeds exactly when
the observed state is in its expected set, raising a fatal error
otherwise. -/
theorem training_state_machine :
    ∀ (e : ZeroEvent) (st st2 : TrainingState),
      (zeroStep e st = Except.ok st2 →
        (claimedEdge st st2 = true ∨ st2 = st
          ∨ e = ZeroEvent.forwardEntry ∨ e = ZeroEvent.forwardReturn
          ∨ (e = ZeroEvent.finalBackwardCallback false
              ∧ st = TrainingState.PRE_BACKWARD ∧ st2 = TrainingState.IDLE)))
      ∧ (stepOk e st = true ↔ st ∈ hookExpectedStates e) := by
  decide

/-- Witness for C5's amended theorem: the first post-backward hook moves
PRE_BACKWARD to POST_BACKWARD, an edge of the claimed sequence. -/
theorem training_state_machine_witness :
    (claimedEdge TrainingState.PRE_BACKWARD TrainingState.POST_BACKWARD = true
      ∨ TrainingState.POST_BACKWARD = TrainingState.PRE_BACKWARD
      ∨ ZeroEvent.postBackwardHook = ZeroEvent.forwardEntry
      ∨ ZeroEvent.postBackwardHook = ZeroEvent.forwardReturn
      ∨ (ZeroEvent.postBackwardHook = ZeroEvent.finalBackwardCallback false
          ∧ TrainingState.PRE_BACKWARD = TrainingState.PRE_BACKWARD
          ∧ TrainingState.POST_BACKWARD = TrainingState.IDLE)) :=
  (training_state_machine ZeroEvent.postBackwardHook TrainingState.PRE_BACKWARD
    TrainingState.POST_BACKWARD).1 rfl

/-- C7 counterexample: in the two-rank post-backward pipeline with the
modelled pre-divide factor 2 (and post-divide factor 2/2 = 1), starting
from gradients [1,2,3,4] and [5,6,7,8], the local gradient shards after
the reduce-scatter stage are [3,4] and [5,6] — the across-rank averages
— not [6,8] and [10,12] as the claim states. -/
theorem reduce_scatter_scenario_cex :
    get_gradient_predivide_factor 2 = 2
    ∧ postBackwardGradPipeline 2 1 2 [[1, 2, 3, 4], [5, 6, 7, 8]] = [[3, 4], [5, 6]]
    ∧ postBackwardGradPipeline 2 1 2 [[1, 2, 3, 4], [5, 6, 7, 8]] ≠ [[6, 8], [10, 12]] := by
  refine ⟨rfl, ?_, ?_⟩ <;>
    norm_num [postBackwardGradPipeline, chunk_and_pad, sumVecs, reduce_scatter_callback,
      List.range_succ]

/-- C7 (amended): with the pre-divide and post-divide factors in place
the two-rank pipeline produces the averaged shards [3,4] on rank 0 and
[5,6] on rank 1; the sums [6,8] and [10,12] are what the bare
reduce-scatter collective produces, i.e. the pipeline with both divide
factors equal to 1. -/
theorem reduce_scatter_scenario_divided :
    postBackwardGradPipeline (get_gradient_predivide_factor 2 : ℚ)
        ((2 : ℚ) / (get_gradient_predivide_factor 2 : ℚ)) 2
        [[1, 2, 3, 4], [5, 6, 7, 8]] = [[3, 4], [5, 6]]
    ∧ postBackwardGradPipeline 1 1 2 [[1, 2, 3, 4], [5, 6, 7, 8]] = [[6, 8], [10, 12]] := by
  constructor <;>
    norm_num [postBackwardGradPipeline, chunk_and_pad, sumVecs, reduce_scatter_callback,
      get_gradient_predivide_factor, predivideFactorLoop, List.range_succ]

/-- C10 (confirmed): when the post-backward hook fires for a parameter
whose gradient is None, it sets the training state to POST_BACKWARD and
changes nothing else — no full-parameter free, no fp16-shard free, no
switch to the fp32 shard, and no reduce-scatter is issued. -/
theorem post_backward_grad_none_frame (cfg : ZeroModelConfig) (w : ParamHookState)
    (hst : w.training_state ∈ [TrainingState.PRE_BACKWARD, TrainingState.POST_BACKWARD])
    (hg : w.grad = none) :
    post_backward_hook cfg w =
      Except.ok { w with training_state := TrainingState.POST_BACKWARD } := by
  unfold post_backward_hook
  rw [if_pos hst]
  simp [hg]

/-- Witness for C10 at a concrete configuration and state. -/
theorem post_backward_grad_none_frame_witness :
    post_backward_hook
        ⟨true, false, true, true, true, 2, 2, 1⟩
        ⟨TrainingState.PRE_BACKWARD, none, false, false, false, false, [], none⟩ =
      Except.ok
        ⟨TrainingState.POST_BACKWARD, none, false, false, false, false, [], none⟩ :=
  post_backward_grad_none_frame
    ⟨true, false, true, true, true, 2, 2, 1⟩
    ⟨TrainingState.PRE_BACKWARD, none, false, false, false, false, [], none⟩
    (by decide) rfl

/-- C9 (confirmed): inside a `no_sync()` scope on a root module in IDLE
state, every nested module's gradient-sync flag is `False`; on scope
exit the `finally` block restores every flag to its saved value, and it
does so both when the body returns normally and when it raises — the
body's outcome is whatever the body produced, and the flags after the
scope equal the flags before it. -/
theorem no_sync_scope {σ ε : Type} (flags : List Bool)
    (body : List Bool → σ → Except ε σ) (st : σ) (run : NoSyncRun σ ε)
    (h : no_sync_run true TrainingState.IDLE flags body st = Except.ok run) :
    (∀ b ∈ run.flags_during, b = false)
    ∧ run.flags_after = Except.ok flags
    ∧ run.body_result = body (flags.map (fun _ => false)) st := by
  have h2 : Except.ok (⟨flags.map (fun _ => false), body (flags.map (fun _ => false)) st,
      restoreFlags flags (flags.map (fun _ => false))⟩ : NoSyncRun σ ε) = Except.ok run := h
  have h3 := Except.ok.inj h2
  subst h3
  refine ⟨?_, restoreFlags_all_false flags, rfl⟩
  intro b hb
  obtain ⟨a, -, ha⟩ := List.mem_map.mp hb
  exact ha.symm

/-- Witness for C9: a two-module tree whose body raises an exception;
the flags inside the scope are all `False` and the original flags
`[true, false]` are restored on exit. -/
theorem no_sync_scope_witness :
    (∀ b ∈ ([false, false] : List Bool), b = false)
    ∧ (Except.ok [true, false] : Except Unit (List Bool)) = Except.ok [true, false]
    ∧ (Except.error 7 : Except Nat Nat) =
        (fun (_ : List Bool) (_ : Nat) => (Except.error 7 : Except Nat Nat))
          ([true, false].map (fun _ => false)) 0 :=
  no_sync_scope [true, false] (fun _ _ => Except.error 7) 0
    ⟨[false, false], Except.error 7, Except.ok [true, false]⟩ rfl

theorem embCandidate_name (meshShape : List Nat) (s : EmbStrategy) (i : Nat)
    (t : EmbStrategy) (h : embCandidate meshShape s i = some t) :
    t.name = s.name ++ "_" ++ toString i := by
  unfold embCandidate at h
  split at h
  · cases h
  · split at h
    · cases h
    · injection h with h2
      rw [← h2]

theorem filterMap_embCandidate_names (meshShape : List Nat) (s : EmbStrategy)
    (l : List Nat) :
    (l.filterMap (embCandidate meshShape s)).map (fun t => t.name)
      = (l.filter (embCandidateOk meshShape s)).map
          (fun i => s.name ++ "_" ++ toString i) := by
  induction l with
  | nil => rfl
  | cons i rest ih =>
      cases h : embCandidate meshShape s i with
      | none =>
          simp only [List.filterMap_cons, h, List.filter_cons, embCandidateOk,
            Option.isSome_none, Bool.false_eq_true, if_false]
          exact ih
      | some t =>
          simp only [List.filterMap_cons, h, List.filter_cons, embCandidateOk,
            Option.isSome_some, if_true, List.map_cons]
          rw [embCandidate_name meshShape s i t h, ih]

/-- C3 (confirmed): when the logical strategy shards the flattened
batch dimension, post-processing yields one physical strategy per
physical input dimension `i` whose updates pass the divisibility
checks, each renamed with the numeric suffix, and every candidate whose
update raises `ShardingNotDivisibleError` is dropped without
propagating the error; with all candidates divisible the number of
physical strategies equals the physical input rank (3 for a rank-3
input); and a logical strategy that does not shard the batch dimension
yields exactly one physical strategy, keeping its name. -/
theorem embedding_fanout (meshShape : List Nat) (s : EmbStrategy) :
    (s.inputDict ≠ [] →
      ∃ l, _convert_logical_sharding_for_embedding meshShape s = Except.ok l
        ∧ l.map (fun t => t.name)
            = ((List.range s.input_physical_shape.length).filter
                (embCandidateOk meshShape s)).map
                (fun i => s.name ++ "_" ++ toString i)
        ∧ ((∀ i ∈ List.range s.input_physical_shape.length,
              embCandidateOk meshShape s i = true) →
            l.length = s.input_physical_shape.length))
    ∧ (s.inputDict = [] →
        ∀ l, _convert_logical_sharding_for_embedding meshShape s = Except.ok l →
          ∃ t, l = [t] ∧ t.name = s.name) := by
  constructor
  · intro h
    refine ⟨(List.range s.input_physical_shape.length).filterMap (embCandidate meshShape s),
      ?_, filterMap_embCandidate_names meshShape s _, ?_⟩
    · unfold _convert_logical_sharding_for_embedding
      rw [if_pos h]
    · intro hall
      have hnames := filterMap_embCandidate_names meshShape s
        (List.range s.input_physical_shape.length)
      have hlen := congrArg List.length hnames
      simp only [List.length_map] at hlen
      rw [hlen, List.filter_eq_self.mpr hall, List.length_range]
  · intro h l hl
    unfold _convert_logical_sharding_for_embedding at hl
    rw [if_neg (by simp [h])] at hl
    split at hl
    · cases hl
    · split at hl
      · cases hl
      · injection hl with h2
        exact ⟨_, h2.symm, rfl⟩

/-- Witness for C3 at the rank-3 scenario: a (2,2) mesh, input shape
[2,4,6], all dims divisible by the partition count 2. -/
theorem embedding_fanout_witness :
    ∃ l, _convert_logical_sharding_for_embedding [2, 2] embScenario = Except.ok l
      ∧ l.map (fun t => t.name)
          = ((List.range embScenario.input_physical_shape.length).filter
              (embCandidateOk [2, 2] embScenario)).map
              (fun i => embScenario.name ++ "_" ++ toString i)
      ∧ ((∀ i ∈ List.range embScenario.input_physical_shape.length,
            embCandidateOk [2, 2] embScenario i = true) →
          l.length = embScenario.input_physical_shape.length) :=
  (embedding_fanout [2, 2] embScenario).1 (by decide)

theorem costsForPred_spec (cc : Nat → Nat → TrainCycleItem) (cur : SpecTree)
    (dat : OpDataTree) :
    ∀ (specs : List SpecTree) (costs : List TrainCycleItem),
      costsForPred cc cur dat specs = Except.ok costs →
      costs.length = specs.length
      ∧ ∀ (i : Nat) (ps2 : SpecTree), specs.get? i = some ps2 →
          ∃ ci, costs.get? i = some ci
            ∧ computeReshardingCost cc ps2 cur dat = Except.ok ci := by
  intro specs
  induction specs with
  | nil =>
      intro costs h
      injection h with h2
      subst h2
      exact ⟨rfl, fun i ps2 hi => by cases hi⟩
  | cons p ps ih =>
      intro costs h
      cases hc : computeReshardingCost cc p cur dat with
      | error e =>
          simp only [costsForPred, hc] at h
          exact Except.noConfusion h
      | ok c =>
          cases hrest : costsForPred cc cur dat ps with
          | error e =>
              simp only [costsForPred, hc, hrest] at h
              exact Except.noConfusion h
          | ok rest =>
              simp only [costsForPred, hc, hrest, Except.ok.injEq] at h
              subst h
              obtain ⟨hlen, hidx⟩ := ih rest hrest
              refine ⟨by simp [hlen], ?_⟩
              intro i ps2 hi
              cases i with
              | zero =>
                  injection hi with hi2
                  subst hi2
                  exact ⟨c, rfl, hc⟩
              | succ n => exact hidx n ps2 hi

/-- C6 counterexample: a predecessor node whose name does not appear
among the strategy's operand names is skipped entirely —
`update_resharding_cost` stores no cost list for it at all, rather than
a list with one entry per predecessor strategy. -/
theorem resharding_skipped_pred_cex :
    update_resharding_cost (fun _ _ => ⟨1, 1, 2⟩)
        [⟨"x", [SpecTree.noSpec]⟩] ⟨[("y", SpecTree.noSpec, OpDataTree.scalar)]⟩ =
      Except.ok []
    ∧ List.lookup "x" ([] : List (String × List TrainCycleItem)) = none := by
  constructor
  · rfl
  · rfl

/-- C6 (amended): for every predecessor node whose name appears among
the strategy's operand names, `update_resharding_cost` stores a list
with exactly one cost entry per strategy of that predecessor, indexed
in the predecessor's own strategy order, each entry the resharding cost
of that predecessor spec against the operand's current spec and data;
predecessors absent from the strategy's operand names are skipped with
no entry.  An absent (`None`) predecessor spec contributes zero cost
(which is how scalar/Python arguments are costed), and tuple/list
operands are costed elementwise recursively with fwd, bwd and total
each summed independently. -/
theorem update_resharding_cost_structure (cc : Nat → Nat → TrainCycleItem)
    (preds : List PredNode) (strat : NodeStrategy)
    (res : List (String × List TrainCycleItem))
    (hnd : (preds.map (fun p => p.name)).Nodup)
    (h : update_resharding_cost cc preds strat = Except.ok res) :
    (∀ p ∈ preds, ∀ od, strat.operands.find? (fun o => o.1 == p.name) = some od →
      ∃ costs, res.lookup p.name = some costs
        ∧ costs.length = p.prev_sharding_specs.length
        ∧ ∀ (i : Nat) (ps2 : SpecTree), p.prev_sharding_specs.get? i = some ps2 →
            ∃ ci, costs.get? i = some ci
              ∧ computeReshardingCost cc ps2 od.2.1 od.2.2 = Except.ok ci)
    ∧ (∀ cur dat, computeReshardingCost cc SpecTree.noSpec cur dat = Except.ok ⟨0, 0, 0⟩)
    ∧ (∀ p2 c2 d2 ps2 cs2 ds2 a b,
        computeReshardingCost cc p2 c2 d2 = Except.ok a →
        sumGroupCosts cc ps2 cs2 ds2 = Except.ok b →
        computeReshardingCost cc (SpecTree.group (p2 :: ps2)) (SpecTree.group (c2 :: cs2))
            (OpDataTree.group (d2 :: ds2))
          = Except.ok ⟨a.fwd + b.fwd, a.bwd + b.bwd, a.total + b.total⟩) := by
  refine ⟨?_, fun cur dat => rfl, ?_⟩
  · induction preds generalizing res with
    | nil => intro p hp; cases hp
    | cons p0 rest ih =>
        have hnd2 : (rest.map (fun p => p.name)).Nodup := (List.nodup_cons.mp hnd).2
        have hhead : p0.name ∉ rest.map (fun p => p.name) := (List.nodup_cons.mp hnd).1
        intro p hp od hf
        cases hfind : strat.operands.find? (fun o => o.1 == p0.name) with
        | none =>
            simp only [update_resharding_cost, hfind] at h
            rcases List.mem_cons.mp hp with hpe | hmem
            · rw [hpe] at hf
              rw [hfind] at hf
              exact Option.noConfusion hf
            · exact ih res hnd2 h p hmem od hf
        | some od0 =>
            cases hcosts : costsForPred cc od0.2.1 od0.2.2 p0.prev_sharding_specs with
            | error e =>
                simp only [update_resharding_cost, hfind, hcosts] at h
                exact Except.noConfusion h
            | ok costs0 =>
                cases htail : update_resharding_cost cc rest strat with
                | error e =>
                    simp only [update_resharding_cost, hfind, hcosts, htail] at h
                    exact Except.noConfusion h
                | ok tail =>
                    simp only [update_resharding_cost, hfind, hcosts, htail,
                      Except.ok.injEq] at h
                    subst h
                    rcases List.mem_cons.mp hp with hpe | hmem
                    · subst hpe
                      rw [hfind] at hf
                      injection hf with hf2
                      subst hf2
                      obtain ⟨hlen, hidx⟩ :=
                        costsForPred_spec cc od0.2.1 od0.2.2 p.prev_sharding_specs costs0 hcosts
                      exact ⟨costs0, by simp [List.lookup], hlen, hidx⟩
                    · have hne : (p.name == p0.name) = false := by
                        refine beq_eq_false_iff_ne.mpr ?_
                        intro hcontra
                        exact hhead (hcontra ▸ List.mem_map_of_mem (fun q => q.name) hmem)
                      obtain ⟨costs, hlook, hrest2⟩ := ih tail hnd2 htail p hmem od hf
                      exact ⟨costs, by simp [List.lookup, hne, hlook], hrest2⟩
  · intro p2 c2 d2 ps2 cs2 ds2 a b ha hb
    simp [computeReshardingCost, sumGroupCosts, ha, hb]

/-- Witness for C6's amended theorem at a concrete node: one
predecessor `x` with two strategies, both assigning no spec. -/
theorem update_resharding_cost_structure_witness :
    (∀ p ∈ [predX], ∀ od, stratX.operands.find? (fun o => o.1 == p.name) = some od →
      ∃ costs, resX.lookup p.name = some costs
        ∧ costs.length = p.prev_sharding_specs.length
        ∧ ∀ (i : Nat) (ps2 : SpecTree), p.prev_sharding_specs.get? i = some ps2 →
            ∃ ci, costs.get? i = some ci
              ∧ computeReshardingCost ccOne ps2 od.2.1 od.2.2 = Except.ok ci)
    ∧ (∀ cur dat, computeReshardingCost ccOne SpecTree.noSpec cur dat = Except.ok ⟨0, 0, 0⟩)
    ∧ (∀ p2 c2 d2 ps2 cs2 ds2 a b,
        computeReshardingCost ccOne p2 c2 d2 = Except.ok a →
        sumGroupCosts ccOne ps2 cs2 ds2 = Except.ok b →
        computeReshardingCost ccOne (SpecTree.group (p2 :: ps2)) (SpecTree.group (c2 :: cs2))
            (OpDataTree.group (d2 :: ds2))
          = Except.ok ⟨a.fwd + b.fwd, a.bwd + b.bwd, a.total + b.total⟩) :=
  update_resharding_cost_structure ccOne [predX] stratX resX (by simp) rfl
